/-
Verification of the RLP-0 Minimum Viable Kernel (rlp-0 repository).

Shallow embedding of the Python sources:
  src/rlp_0/gates.py     — Gate, GateState, GateEvent
  src/rlp_0/signals.py   — Signal, SignalType, SignalBus
  src/rlp_0/semantic.py  — RelationalState (validation, update)
  src/rlp_0/core.py      — RLP0 kernel (compute_rupture_risk,
                           acknowledge_repair, update_state, check_gate)

Python floats are embedded as exact rationals (ℚ); `datetime.now()`
timestamps are embedded as an explicit `now : Nat` argument threaded
through the operations; exceptions (`ValueError` raised by
`RelationalState.__post_init__`) become `Except String`.
-/
import Mathlib

/-- Embeds `GateState` of gates.py: `OPEN = auto()`, `CLOSED = auto()`. -/
inductive GateState where
  | OPEN : GateState
  | CLOSED : GateState
deriving Repr, DecidableEq

/-- Embeds `GateEvent` of gates.py: record of a gate state change.
`action` is `"closed"` or `"released"`. -/
structure GateEvent where
  action : String
  timestamp : Nat
  reason : Option String := none
  rupture_risk_at_event : ℚ := 0
deriving Repr, DecidableEq

/-- Embeds the `Gate` dataclass of gates.py. -/
structure Gate where
  state : GateState := GateState.OPEN
  closed_at : Option Nat := none
  reason : Option String := none
  history : List GateEvent := []
deriving Repr, DecidableEq

/-- `Gate.is_open` property of gates.py. -/
def Gate.is_open (g : Gate) : Bool :=
  g.state = GateState.OPEN

/-- `Gate.is_closed` property of gates.py. -/
def Gate.is_closed (g : Gate) : Bool :=
  g.state = GateState.CLOSED

/-- Embeds `Gate.close(reason, rupture_risk)` of gates.py: no-op when
already closed; otherwise transition to CLOSED, record `closed_at = now`
and the reason, and append a `closed` event carrying the risk value. -/
def Gate.close (g : Gate) (reason : String) (rupture_risk : ℚ) (now : Nat) : Gate :=
  if g.is_closed then g
  else
    { state := GateState.CLOSED
      closed_at := some now
      reason := some reason
      history := g.history ++
        [{ action := "closed", timestamp := now, reason := some reason,
           rupture_risk_at_event := rupture_risk }] }

/-- Embeds `Gate.release(rupture_risk)` of gates.py: no-op when already
open; otherwise transition to OPEN, append a `released` event with reason
`"repair_acknowledged"`, and clear `closed_at` and `reason`. -/
def Gate.release (g : Gate) (rupture_risk : ℚ) (now : Nat) : Gate :=
  if g.is_open then g
  else
    { state := GateState.OPEN
      closed_at := none
      reason := none
      history := g.history ++
        [{ action := "released", timestamp := now, reason := some "repair_acknowledged",
           rupture_risk_at_event := rupture_risk }] }

/-- Embeds `Gate.check()` of gates.py: true iff the gate is open. -/
def Gate.check (g : Gate) : Bool :=
  g.is_open

/-- Embeds `SignalType` of signals.py (single variant). -/
inductive SignalType where
  | RUPTURE_DETECTED : SignalType
deriving Repr, DecidableEq

/-- Embeds the `Signal` dataclass of signals.py. -/
structure Signal where
  signal_type : SignalType
  timestamp : Nat
  rupture_risk : ℚ
  context : Option String := none
deriving Repr, DecidableEq

/-- Embeds the `RelationalState` dataclass of semantic.py.  The four
primitives, the derived risk, the last-updated timestamp and the gate
flag.  Range validation lives in `postInitCheck` (the embedding of
`__post_init__`), which every construction path goes through. -/
structure RelationalState where
  trust : ℚ := 1
  intent : ℚ := 1
  narrative : ℚ := 1
  commitments : ℚ := 1
  rupture_risk : ℚ := 0
  last_updated : Nat := 0
  is_gated : Bool := false
deriving Repr, DecidableEq

/-- Embeds `RelationalState.__post_init__` of semantic.py: each of the
four primitives must lie in [0.0, 1.0], checked in the order trust,
intent, narrative, commitments; the first violation raises `ValueError`.
Only the four primitives are checked — `rupture_risk` and `is_gated`
are accepted unvalidated. -/
def postInitCheck (s : RelationalState) : Except String RelationalState :=
  if ¬ (0 ≤ s.trust ∧ s.trust ≤ 1) then
    Except.error "trust must be between 0.0 and 1.0"
  else if ¬ (0 ≤ s.intent ∧ s.intent ≤ 1) then
    Except.error "intent must be between 0.0 and 1.0"
  else if ¬ (0 ≤ s.narrative ∧ s.narrative ≤ 1) then
    Except.error "narrative must be between 0.0 and 1.0"
  else if ¬ (0 ≤ s.commitments ∧ s.commitments ≤ 1) then
    Except.error "commitments must be between 0.0 and 1.0"
  else
    Except.ok s

/-- Embeds the validated dataclass constructor `RelationalState(...)` of
semantic.py: build the instance, then run `__post_init__`.  The
`last_updated` default factory `datetime.now` is the explicit `lu`
argument. -/
def RelationalState.make (t i n c risk : ℚ) (lu : Nat) (g : Bool) :
    Except String RelationalState :=
  postInitCheck
    { trust := t, intent := i, narrative := n, commitments := c,
      rupture_risk := risk, last_updated := lu, is_gated := g }

/-- Embeds `RelationalState.update(**kwargs)` of semantic.py: each
primitive is `kwargs.get(name, current)`; `rupture_risk` and `is_gated`
are passed through unchanged; `last_updated` is freshly defaulted
(`now`); the constructor re-validates. -/
def RelationalState.update (s : RelationalState)
    (t? i? n? c? : Option ℚ) (now : Nat) : Except String RelationalState :=
  RelationalState.make (t?.getD s.trust) (i?.getD s.intent)
    (n?.getD s.narrative) (c?.getD s.commitments)
    s.rupture_risk now s.is_gated

/-- Embeds the `RLP0` kernel of core.py: one `RelationalState`, one
`Gate`, one `SignalBus`.  The bus is embedded by its two fields:
`signalHistory` (`SignalBus._history`) and `subscribers`
(`SignalBus._subscribers`, callbacks by identity, as opaque ids). -/
structure RLP0 where
  state : RelationalState
  gate : Gate := {}
  signalHistory : List Signal := []
  subscribers : List Nat := []
  rupture_threshold : ℚ := 6/10
deriving Repr, DecidableEq

/-- Embeds `RLP0.__init__(rupture_threshold, state)` of core.py:
`self._state = state or RelationalState()` (a dataclass instance is
always truthy, so a supplied state is taken verbatim), fresh open gate,
empty bus.  `now` is the construction time for the default state's
`last_updated` factory. -/
def RLP0.init (rupture_threshold : ℚ) (state : Option RelationalState) (now : Nat) : RLP0 :=
  { state := state.getD { last_updated := now }
    gate := {}
    signalHistory := []
    subscribers := []
    rupture_threshold := rupture_threshold }

/-- The risk expression inside `RLP0.compute_rupture_risk` of core.py:
average of `(1 - primitive)` over the four primitives. -/
def riskOf (s : RelationalState) : ℚ :=
  ((1 - s.trust) + (1 - s.intent) + (1 - s.narrative) + (1 - s.commitments)) / 4

/-- Embeds the `is_gated` property of core.py: `self._gate.is_closed`. -/
def RLP0.isGatedProp (k : RLP0) : Bool :=
  k.gate.is_closed

/-- Embeds `RLP0._emit_rupture_detected(risk)` of core.py composed with
`SignalBus.emit`: build the RUPTURE_DETECTED signal and append it to the
bus history (subscriber fan-out carries no kernel effect here). -/
def RLP0.emitRuptureDetected (k : RLP0) (risk : ℚ) (now : Nat) : RLP0 :=
  { k with signalHistory := k.signalHistory ++
      [{ signal_type := SignalType.RUPTURE_DETECTED
         timestamp := now
         rupture_risk := risk
         context := some ("Rupture risk " ++ toString risk ++
           " exceeded threshold " ++ toString k.rupture_threshold) }] }

/-- Embeds `RLP0.compute_rupture_risk()` of core.py: compute the risk,
write it and a refreshed timestamp into the live state unconditionally;
when `risk >= rupture_threshold` and the gate is open, emit
RUPTURE_DETECTED, close the gate with the threshold message as reason,
and set `is_gated = True` on the state.  Returns the computed risk. -/
def RLP0.compute_rupture_risk (k : RLP0) (now : Nat) : RLP0 × ℚ :=
  let risk := riskOf k.state
  let st := { k.state with rupture_risk := risk, last_updated := now }
  if risk ≥ k.rupture_threshold ∧ k.gate.is_open then
    let k1 := RLP0.emitRuptureDetected { k with state := st } risk now
    let g := k1.gate.close
      ("rupture_risk=" ++ toString risk ++ " >= threshold=" ++
        toString k.rupture_threshold) risk now
    ({ k1 with gate := g, state := { st with is_gated := true } }, risk)
  else
    ({ k with state := st }, risk)

/-- Embeds `RLP0.acknowledge_repair()` of core.py: `False` when not
gated; otherwise recompute risk, release the gate at the recomputed
risk, clear the state's gate flag, return `True`. -/
def RLP0.acknowledge_repair (k : RLP0) (now : Nat) : RLP0 × Bool :=
  if ¬ k.isGatedProp then (k, false)
  else
    let k1 := (k.compute_rupture_risk now).1
    let g := k1.gate.release k1.state.rupture_risk now
    ({ k1 with gate := g, state := { k1.state with is_gated := false } }, true)

/-- Embeds `RLP0.update_state(trust, intent, narrative, commitments)` of
core.py: when at least one value is given, replace the state with
`self._state.update(**updates)` (whose `ValueError` aborts the call with
the prior kernel intact); then compute and respond to rupture risk. -/
def RLP0.update_state (k : RLP0) (t? i? n? c? : Option ℚ) (now : Nat) :
    Except String RLP0 :=
  let stE :=
    if t?.isNone ∧ i?.isNone ∧ n?.isNone ∧ c?.isNone then Except.ok k.state
    else k.state.update t? i? n? c? now
  match stE with
  | Except.error e => Except.error e
  | Except.ok st => Except.ok ((RLP0.compute_rupture_risk { k with state := st } now).1)

/-- Embeds `RLP0.check_gate()` of core.py: delegates to `Gate.check`. -/
def RLP0.check_gate (k : RLP0) : Bool :=
  k.gate.check

/-- Embeds `RLP0.subscribe(callback)` via `SignalBus.subscribe`:
append the callback (by identity) to the subscriber list. -/
def RLP0.subscribeCb (k : RLP0) (cb : Nat) : RLP0 :=
  { k with subscribers := k.subscribers ++ [cb] }

/-- Embeds `RLP0.unsubscribe(callback)` via `SignalBus.unsubscribe`:
remove the first identity match, no-op when absent
(`list.remove` semantics). -/
def RLP0.unsubscribeCb (k : RLP0) (cb : Nat) : RLP0 :=
  { k with subscribers :=
      if k.subscribers.contains cb then k.subscribers.erase cb else k.subscribers }

/-- Python list objects, for the defensive-copy claims: a store of list
cells addressed by allocation index.  `alloc` models creating a fresh
list object, `mutate` models in-place mutation of an existing one. -/
structure ListHeap (α : Type) where
  cells : List (List α)

/-- Contents of the list object at location `l`. -/
def ListHeap.contents (h : ListHeap α) (l : Nat) : List α :=
  h.cells.getD l []

/-- Allocate a fresh list object holding `v`; returns the new heap and
the fresh location. -/
def ListHeap.alloc (h : ListHeap α) (v : List α) : ListHeap α × Nat :=
  ({ cells := h.cells ++ [v] }, h.cells.length)

/-- In-place mutation of the list object at `l` (covers append, remove,
clear: any replacement of its contents). -/
def ListHeap.mutate (h : ListHeap α) (l : Nat) (v : List α) : ListHeap α :=
  { cells := h.cells.set l v }

/-- signals.py `SignalBus` seen as a heap object: `_history` is a
location in a `ListHeap Signal`. -/
structure SignalBusObj where
  histLoc : Nat

/-- Embeds the `history` property of signals.py:
`return self._history.copy()` — allocate a fresh list object holding a
copy of the internal history's elements and return it. -/
def SignalBusObj.historyAccessor (b : SignalBusObj) (h : ListHeap Signal) :
    ListHeap Signal × Nat :=
  h.alloc (h.contents b.histLoc)

/-- One entry of the `gate_history` list built by `RLP0.status()` of
core.py: the dict with keys action, timestamp, reason, rupture_risk. -/
structure GateHistoryEntry where
  action : String
  timestamp : Nat
  reason : Option String
  rupture_risk : ℚ
deriving Repr, DecidableEq

/-- The dict built from one `GateEvent` inside `RLP0.status()`. -/
def statusEntryOfEvent (e : GateEvent) : GateHistoryEntry :=
  { action := e.action, timestamp := e.timestamp, reason := e.reason,
    rupture_risk := e.rupture_risk_at_event }

/-- Embeds the `gate_history` list comprehension of `RLP0.status()` of
core.py, with the gate's internal `history` list as a heap object at
`lg`: the comprehension reads the internal list and allocates a fresh
list of fresh dicts; the gate's heap is returned untouched. -/
def statusGateHistoryAlloc (gateHeap : ListHeap GateEvent) (lg : Nat)
    (entryHeap : ListHeap GateHistoryEntry) :
    ListHeap GateEvent × ListHeap GateHistoryEntry × Nat :=
  let entries := (gateHeap.contents lg).map statusEntryOfEvent
  let alloc := entryHeap.alloc entries
  (gateHeap, alloc.1, alloc.2)

/-- The public calls on the kernel of core.py, for stating invariants
over arbitrary call sequences. -/
inductive KernelOp where
  | updateSt (t? i? n? c? : Option ℚ) (now : Nat) : KernelOp
  | computeRisk (now : Nat) : KernelOp
  | ackRepair (now : Nat) : KernelOp
  | checkG : KernelOp
  | sub (cb : Nat) : KernelOp
  | unsub (cb : Nat) : KernelOp
  | statusQ : KernelOp

/-- Effect of one public call on the kernel: read-only calls
(`check_gate`, `status`) leave it unchanged; a failing `update_state`
propagates its `ValueError`, leaving the kernel unchanged. -/
def applyOp (k : RLP0) : KernelOp → RLP0
  | KernelOp.updateSt t i n c now =>
      match k.update_state t i n c now with
      | Except.ok k1 => k1
      | Except.error _ => k
  | KernelOp.computeRisk now => (k.compute_rupture_risk now).1
  | KernelOp.ackRepair now => (k.acknowledge_repair now).1
  | KernelOp.checkG => k
  | KernelOp.sub cb => k.subscribeCb cb
  | KernelOp.unsub cb => k.unsubscribeCb cb
  | KernelOp.statusQ => k

/-- Run a sequence of public calls. -/
def runOps (k : RLP0) (ops : List KernelOp) : RLP0 :=
  ops.foldl applyOp k

/-- The gating coherence property of the kernel: the state's `is_gated`
flag mirrors the gate's CLOSED status. -/
def gateCoherent (k : RLP0) : Prop :=
  k.state.is_gated = k.gate.is_closed

/-- Sample state: all four primitives at 0.2. -/
def sLow : RelationalState :=
  { trust := 1/5, intent := 1/5, narrative := 1/5, commitments := 1/5 }

/-- Sample kernel: open gate, threshold 0.5, primitives at 0.2. -/
def kLow : RLP0 :=
  { state := sLow, rupture_threshold := 1/2 }

/-- Sample kernel with a closed gate, produced by a rupture at time 3. -/
def kClosed : RLP0 :=
  (kLow.compute_rupture_risk 3).1

def sigSample : Signal :=
  { signal_type := SignalType.RUPTURE_DETECTED, timestamp := 0,
    rupture_risk := 1/2, context := none }

def busHeapSample : ListHeap Signal :=
  { cells := [[sigSample]] }

def evSample : GateEvent :=
  { action := "closed", timestamp := 3, reason := none,
    rupture_risk_at_event := 4/5 }

def gateHeapSample : ListHeap GateEvent :=
  { cells := [[evSample]] }

/-- An all-healthy state carrying an arbitrary (unvalidated)
`rupture_risk` value, as the Python constructor accepts it. -/
def riskCarrierState (risk : ℚ) (lu : Nat) : RelationalState :=
  { trust := 1, intent := 1, narrative := 1, commitments := 1,
    rupture_risk := risk, last_updated := lu, is_gated := false }

lemma Gate.is_open_eq_not_closed (g : Gate) : g.is_open = !g.is_closed := by
  cases h : g.state <;> simp [Gate.is_open, Gate.is_closed, h]

lemma Gate.is_closed_false_of_open (g : Gate) (h : g.is_open = true) :
    g.is_closed = false := by
  rw [Gate.is_open_eq_not_closed] at h
  cases hc : g.is_closed <;> simp [hc] at h ⊢

lemma Gate.is_open_false_of_closed (g : Gate) (h : g.is_closed = true) :
    g.is_open = false := by
  rw [Gate.is_open_eq_not_closed, h]
  rfl

/-- Characterization of a successful `RelationalState.update`: the
result is exactly the merged record. -/
lemma update_ok_fields (s : RelationalState) (t? i? n? c? : Option ℚ)
    (now : Nat) (st : RelationalState)
    (h : s.update t? i? n? c? now = Except.ok st) :
    st = { trust := t?.getD s.trust, intent := i?.getD s.intent,
           narrative := n?.getD s.narrative, commitments := c?.getD s.commitments,
           rupture_risk := s.rupture_risk, last_updated := now,
           is_gated := s.is_gated } := by
  simp only [RelationalState.update, RelationalState.make, postInitCheck] at h
  repeat' split at h
  all_goals simp_all

lemma Gate.close_is_closed (g : Gate) (r : String) (rr : ℚ) (now : Nat) :
    (g.close r rr now).is_closed = true := by
  unfold Gate.close
  split
  · assumption
  · rfl

lemma Gate.release_is_open (g : Gate) (rr : ℚ) (now : Nat) :
    (g.release rr now).is_open = true := by
  unfold Gate.release
  split
  · assumption
  · rfl

/-- `compute_rupture_risk` when the threshold is reached on an open
gate: risk and timestamp written, gate flag set, signal appended, gate
closed with the formatted reason. -/
lemma compute_pos (k : RLP0) (now : Nat)
    (hopen : k.gate.is_open = true)
    (hrisk : riskOf k.state ≥ k.rupture_threshold) :
    k.compute_rupture_risk now =
      ({ k with
          state := { k.state with rupture_risk := riskOf k.state,
                                  last_updated := now, is_gated := true }
          gate := k.gate.close
            ("rupture_risk=" ++ toString (riskOf k.state) ++ " >= threshold=" ++
              toString k.rupture_threshold) (riskOf k.state) now
          signalHistory := k.signalHistory ++
            [{ signal_type := SignalType.RUPTURE_DETECTED, timestamp := now,
               rupture_risk := riskOf k.state,
               context := some ("Rupture risk " ++ toString (riskOf k.state) ++
                 " exceeded threshold " ++ toString k.rupture_threshold) }] },
       riskOf k.state) := by
  simp [RLP0.compute_rupture_risk, RLP0.emitRuptureDetected, hopen, hrisk]

/-- `compute_rupture_risk` when the threshold/open-gate condition
fails: risk and timestamp written, nothing else changes. -/
lemma compute_neg (k : RLP0) (now : Nat)
    (hcond : ¬ (riskOf k.state ≥ k.rupture_threshold ∧ k.gate.is_open = true)) :
    k.compute_rupture_risk now =
      ({ k with state := { k.state with rupture_risk := riskOf k.state,
                                        last_updated := now } },
       riskOf k.state) := by
  simp only [RLP0.compute_rupture_risk]
  rw [if_neg]
  exact hcond

lemma compute_coherent (k : RLP0) (now : Nat) (h : gateCoherent k) :
    gateCoherent (k.compute_rupture_risk now).1 := by
  by_cases hc : riskOf k.state ≥ k.rupture_threshold ∧ k.gate.is_open = true
  · rw [compute_pos k now hc.2 hc.1]
    simp [gateCoherent, Gate.close_is_closed]
  · rw [compute_neg k now hc]
    simpa [gateCoherent] using h

lemma ack_coherent (k : RLP0) (now : Nat) (h : gateCoherent k) :
    gateCoherent (k.acknowledge_repair now).1 := by
  unfold RLP0.acknowledge_repair
  split
  · exact h
  · simp only [gateCoherent]
    rw [Gate.is_closed_false_of_open _ (Gate.release_is_open _ _ _)]

lemma update_coherent (k : RLP0) (t? i? n? c? : Option ℚ) (now : Nat)
    (h : gateCoherent k) :
    gateCoherent (applyOp k (KernelOp.updateSt t? i? n? c? now)) := by
  simp only [applyOp, RLP0.update_state]
  by_cases hall : t?.isNone ∧ i?.isNone ∧ n?.isNone ∧ c?.isNone
  · rw [if_pos hall]
    exact compute_coherent _ now h
  · rw [if_neg hall]
    rcases hst : k.state.update t? i? n? c? now with e | st
    · exact h
    · have hfld := update_ok_fields _ _ _ _ _ _ _ hst
      apply compute_coherent _ now
      simp only [gateCoherent] at h ⊢
      rw [hfld]
      exact h

lemma applyOp_coherent (k : RLP0) (op : KernelOp) (h : gateCoherent k) :
    gateCoherent (applyOp k op) := by
  cases op with
  | updateSt t i n c now => exact update_coherent k t i n c now h
  | computeRisk now => exact compute_coherent k now h
  | ackRepair now => exact ack_coherent k now h
  | checkG => exact h
  | sub cb => exact h
  | unsub cb => exact h
  | statusQ => exact h

lemma runOps_coherent (ops : List KernelOp) (k : RLP0) (h : gateCoherent k) :
    gateCoherent (runOps k ops) := by
  induction ops generalizing k with
  | nil => exact h
  | cons op rest ih => exact ih (applyOp k op) (applyOp_coherent k op h)

lemma Gate.close_of_open (g : Gate) (h : g.is_open = true) (r : String)
    (rr : ℚ) (now : Nat) :
    g.close r rr now =
      { state := GateState.CLOSED, closed_at := some now, reason := some r,
        history := g.history ++ [{ action := "closed", timestamp := now,
                                   reason := some r,
                                   rupture_risk_at_event := rr }] } := by
  simp [Gate.close, Gate.is_closed_false_of_open g h]

lemma Gate.release_of_closed (g : Gate) (h : g.is_closed = true) (rr : ℚ)
    (now : Nat) :
    g.release rr now =
      { state := GateState.OPEN, closed_at := none, reason := none,
        history := g.history ++ [{ action := "released", timestamp := now,
                                   reason := some "repair_acknowledged",
                                   rupture_risk_at_event := rr }] } := by
  simp [Gate.release, Gate.is_open_false_of_closed g h]

/-- The risk and timestamp write of `compute_rupture_risk` happens on
every call, and the returned value is the formula value. -/
lemma compute_writes_risk (k : RLP0) (now : Nat) :
    (k.compute_rupture_risk now).2 = riskOf k.state ∧
    (k.compute_rupture_risk now).1.state.rupture_risk = riskOf k.state ∧
    (k.compute_rupture_risk now).1.state.last_updated = now := by
  by_cases hc : riskOf k.state ≥ k.rupture_threshold ∧ k.gate.is_open = true
  · rw [compute_pos k now hc.2 hc.1]
    exact ⟨rfl, rfl, rfl⟩
  · rw [compute_neg k now hc]
    exact ⟨rfl, rfl, rfl⟩

lemma not_in_range (v : ℚ) (hv : v < 0 ∨ 1 < v) : ¬ (0 ≤ v ∧ v ≤ 1) := by
  rintro ⟨h0, h1⟩
  rcases hv with h | h <;> linarith

/-- `__post_init__` raises as soon as one primitive is out of range. -/
lemma postInitCheck_error_of_invalid (s : RelationalState)
    (h : ¬ (0 ≤ s.trust ∧ s.trust ≤ 1) ∨ ¬ (0 ≤ s.intent ∧ s.intent ≤ 1) ∨
         ¬ (0 ≤ s.narrative ∧ s.narrative ≤ 1) ∨
         ¬ (0 ≤ s.commitments ∧ s.commitments ≤ 1)) :
    ∃ e, postInitCheck s = Except.error e := by
  unfold postInitCheck
  repeat' split
  all_goals first
    | exact ⟨_, rfl⟩
    | tauto

lemma kLow_risk_ge : riskOf kLow.state ≥ kLow.rupture_threshold := by
  norm_num [kLow, sLow, riskOf]

lemma kClosed_is_closed : kClosed.gate.is_closed = true := by
  rw [kClosed, compute_pos kLow 3 rfl kLow_risk_ge]
  exact Gate.close_is_closed _ _ _ _

/-- A successful `update_state` call is a state replacement followed by
`compute_rupture_risk` on the replaced state. -/
lemma update_state_ok (k : RLP0) (t? i? n? c? : Option ℚ) (now : Nat)
    (k1 : RLP0) (h : k.update_state t? i? n? c? now = Except.ok k1) :
    ∃ st : RelationalState,
      k1 = (RLP0.compute_rupture_risk { k with state := st } now).1 := by
  simp only [RLP0.update_state] at h
  split at h
  · cases h
  · injection h with h2
    exact ⟨_, h2.symm⟩

/-- Characterization of `acknowledge_repair` on a closed gate: the risk
is recomputed and written, the gate reopens with one appended
`released` event at the recomputed risk, the state's flag clears, and
the call returns `True`. -/
lemma ack_of_closed (k : RLP0) (now : Nat) (hc : k.gate.is_closed = true) :
    k.acknowledge_repair now =
      ({ k with
          state := { k.state with rupture_risk := riskOf k.state,
                                  last_updated := now, is_gated := false }
          gate := { state := GateState.OPEN, closed_at := none, reason := none,
                    history := k.gate.history ++
                      [{ action := "released", timestamp := now,
                         reason := some "repair_acknowledged",
                         rupture_risk_at_event := riskOf k.state }] } },
       true) := by
  have hopenF : k.gate.is_open = false := Gate.is_open_false_of_closed k.gate hc
  have hcomp := compute_neg k now
    (fun h => by rw [hopenF] at h; exact absurd h.2 (by simp))
  simp only [RLP0.acknowledge_repair, RLP0.isGatedProp, hc]
  rw [if_neg (by simp)]
  rw [hcomp]
  rw [Gate.release_of_closed k.gate hc]

/-- C1: on an open gate, a computed risk at or above the threshold
emits exactly one RUPTURE_DETECTED signal carrying that risk (appended
to the bus history), closes the gate recording one `closed` event at
that risk, and sets the state's `is_gated` flag. -/
theorem C1_rupture_detection (k : RLP0) (now : Nat)
    (hopen : k.gate.is_open = true)
    (hrisk : (k.compute_rupture_risk now).2 ≥ k.rupture_threshold) :
    (∃ sig, (k.compute_rupture_risk now).1.signalHistory
        = k.signalHistory ++ [sig] ∧
      sig.signal_type = SignalType.RUPTURE_DETECTED ∧
      sig.rupture_risk = (k.compute_rupture_risk now).2) ∧
    (k.compute_rupture_risk now).1.gate.state = GateState.CLOSED ∧
    (∃ ev, (k.compute_rupture_risk now).1.gate.history
        = k.gate.history ++ [ev] ∧
      ev.action = "closed" ∧
      ev.rupture_risk_at_event = (k.compute_rupture_risk now).2) ∧
    (k.compute_rupture_risk now).1.state.is_gated = true := by
  have hr : riskOf k.state ≥ k.rupture_threshold := by
    rwa [(compute_writes_risk k now).1] at hrisk
  rw [compute_pos k now hopen hr, Gate.close_of_open k.gate hopen]
  exact ⟨⟨_, rfl, rfl, rfl⟩, rfl, ⟨_, rfl, rfl, rfl⟩, rfl⟩

theorem C1_witness :
    kLow.gate.is_open = true ∧
    (kLow.compute_rupture_risk 7).2 ≥ kLow.rupture_threshold ∧
    (kLow.compute_rupture_risk 7).1.state.is_gated = true ∧
    (kLow.compute_rupture_risk 7).1.gate.state = GateState.CLOSED := by
  have h2 : (kLow.compute_rupture_risk 7).2 ≥ kLow.rupture_threshold := by
    rw [(compute_writes_risk kLow 7).1]
    exact kLow_risk_ge
  have h := C1_rupture_detection kLow 7 rfl h2
  exact ⟨rfl, h2, h.2.2.2, h.2.1⟩

/-- C2: every call of `compute_rupture_risk` returns
`((1-a)+(1-b)+(1-c)+(1-d))/4` over the four signals and writes exactly
that value and a refreshed timestamp into the state, regardless of gate
status; with all four signals at 0.2 the risk is 0.8. -/
theorem C2_risk_formula (k : RLP0) (now : Nat) :
    (k.compute_rupture_risk now).2 =
      ((1 - k.state.trust) + (1 - k.state.intent) +
        (1 - k.state.narrative) + (1 - k.state.commitments)) / 4 ∧
    (k.compute_rupture_risk now).1.state.rupture_risk =
      (k.compute_rupture_risk now).2 ∧
    (k.compute_rupture_risk now).1.state.last_updated = now ∧
    (kLow.compute_rupture_risk now).2 = 4/5 := by
  obtain ⟨h1, h2, h3⟩ := compute_writes_risk k now
  obtain ⟨h4, _, _⟩ := compute_writes_risk kLow now
  refine ⟨h1, by rw [h1, h2], h3, ?_⟩
  rw [h4]
  norm_num [kLow, sLow, riskOf]

/-- C3: `acknowledge_repair` returns true iff the gate was closed; on
an open gate it changes nothing; on a closed gate it recomputes the
risk, reopens the gate, clears the state's flag, and appends exactly
one `released` event — unconditionally, with no hypothesis that the
recomputed risk fell below the threshold. -/
theorem C3_acknowledge_repair (k : RLP0) (now : Nat) :
    ((k.acknowledge_repair now).2 = true ↔ k.gate.is_closed = true) ∧
    (k.gate.is_closed = false → (k.acknowledge_repair now).1 = k) ∧
    (k.gate.is_closed = true →
      (k.acknowledge_repair now).1.gate.state = GateState.OPEN ∧
      (k.acknowledge_repair now).1.state.is_gated = false ∧
      (k.acknowledge_repair now).1.state.rupture_risk = riskOf k.state ∧
      (k.acknowledge_repair now).1.gate.history =
        k.gate.history ++
          [{ action := "released", timestamp := now,
             reason := some "repair_acknowledged",
             rupture_risk_at_event := riskOf k.state }]) := by
  cases hc : k.gate.is_closed with
  | false =>
    have hk : k.acknowledge_repair now = (k, false) := by
      simp only [RLP0.acknowledge_repair, RLP0.isGatedProp, hc]
      rw [if_pos (by simp)]
    rw [hk]
    exact ⟨Iff.rfl, fun _ => rfl, fun h => absurd h (by decide)⟩
  | true =>
    rw [ack_of_closed k now hc]
    exact ⟨Iff.rfl, fun h => absurd h (by decide),
      fun _ => ⟨rfl, rfl, rfl, rfl⟩⟩

theorem C3_witness :
    (kClosed.acknowledge_repair 5).2 = true ∧
    (kClosed.acknowledge_repair 5).1.gate.state = GateState.OPEN ∧
    (kClosed.acknowledge_repair 5).1.state.is_gated = false ∧
    (kLow.acknowledge_repair 5).2 = false ∧
    (kLow.acknowledge_repair 5).1 = kLow := by
  have hcl := C3_acknowledge_repair kClosed 5
  have hop := C3_acknowledge_repair kLow 5
  obtain ⟨hst, hfl, _, _⟩ := hcl.2.2 kClosed_is_closed
  refine ⟨hcl.1.mpr kClosed_is_closed, hst, hfl, ?_, hop.2.1 rfl⟩
  cases hb : (kLow.acknowledge_repair 5).2 with
  | false => rfl
  | true => cases hop.1.mp hb

/-- C4: for each of the four signals, construction or `update_state`
with a value strictly outside [0.0, 1.0] raises `ValueError` (so the
transition is abandoned: no new state or kernel is produced), while the
exact bounds 0.0 and 1.0 are accepted. -/
theorem C4_range_validation (v : ℚ) (hv : v < 0 ∨ 1 < v) :
    (∃ e, RelationalState.make v 1 1 1 0 0 false = Except.error e) ∧
    (∃ e, RelationalState.make 1 v 1 1 0 0 false = Except.error e) ∧
    (∃ e, RelationalState.make 1 1 v 1 0 0 false = Except.error e) ∧
    (∃ e, RelationalState.make 1 1 1 v 0 0 false = Except.error e) ∧
    (∀ (k : RLP0) (now : Nat),
      ∃ e, k.update_state (some v) none none none now = Except.error e) ∧
    (∀ (k : RLP0) (now : Nat),
      ∃ e, k.update_state none (some v) none none now = Except.error e) ∧
    (∀ (k : RLP0) (now : Nat),
      ∃ e, k.update_state none none (some v) none now = Except.error e) ∧
    (∀ (k : RLP0) (now : Nat),
      ∃ e, k.update_state none none none (some v) now = Except.error e) ∧
    (∃ s, RelationalState.make 0 0 0 0 0 0 false = Except.ok s) ∧
    (∃ s, RelationalState.make 1 1 1 1 0 0 false = Except.ok s) := by
  have hnr : ¬ (0 ≤ v ∧ v ≤ 1) := not_in_range v hv
  have hupd : ∀ (k : RLP0) (now : Nat) (t? i? n? c? : Option ℚ),
      ¬ (t?.isNone ∧ i?.isNone ∧ n?.isNone ∧ c?.isNone) →
      (∃ e, k.state.update t? i? n? c? now = Except.error e) →
      ∃ e, k.update_state t? i? n? c? now = Except.error e := by
    rintro k now t i n c hno ⟨e, he⟩
    refine ⟨e, ?_⟩
    simp only [RLP0.update_state]
    rw [if_neg hno, he]
  refine ⟨postInitCheck_error_of_invalid _ (Or.inl hnr),
    postInitCheck_error_of_invalid _ (Or.inr (Or.inl hnr)),
    postInitCheck_error_of_invalid _ (Or.inr (Or.inr (Or.inl hnr))),
    postInitCheck_error_of_invalid _ (Or.inr (Or.inr (Or.inr hnr))),
    fun k now => hupd k now _ _ _ _ (by simp)
      (postInitCheck_error_of_invalid _ (Or.inl hnr)),
    fun k now => hupd k now _ _ _ _ (by simp)
      (postInitCheck_error_of_invalid _ (Or.inr (Or.inl hnr))),
    fun k now => hupd k now _ _ _ _ (by simp)
      (postInitCheck_error_of_invalid _ (Or.inr (Or.inr (Or.inl hnr)))),
    fun k now => hupd k now _ _ _ _ (by simp)
      (postInitCheck_error_of_invalid _ (Or.inr (Or.inr (Or.inr hnr)))),
    ⟨{ trust := 0, intent := 0, narrative := 0, commitments := 0,
       rupture_risk := 0, last_updated := 0, is_gated := false },
      by norm_num [RelationalState.make, postInitCheck]⟩,
    ⟨{ trust := 1, intent := 1, narrative := 1, commitments := 1,
       rupture_risk := 0, last_updated := 0, is_gated := false },
      by norm_num [RelationalState.make, postInitCheck]⟩⟩

theorem C4_witness :
    (∃ e, RelationalState.make (3/2) 1 1 1 0 0 false = Except.error e) ∧
    (∃ e, kLow.update_state (some (3/2)) none none none 9 = Except.error e) ∧
    (∃ e, RelationalState.make 1 (-1/10) 1 1 0 0 false = Except.error e) := by
  have h1 := C4_range_validation (3/2) (Or.inr (by norm_num))
  have h2 := C4_range_validation (-1/10) (Or.inl (by norm_num))
  exact ⟨h1.1, h1.2.2.2.2.1 kLow 9, h2.2.1⟩

/-- C5: a successful `update` returns an instance where unspecified
signals keep the old values, specified signals take the given values,
`rupture_risk` and `is_gated` are carried over unchanged (no risk
recomputation inside `update`), and the timestamp is refreshed; the
original instance `s1` is a value and is never mutated. -/
theorem C5_update_frame (s1 : RelationalState) (t? i? n? c? : Option ℚ)
    (now : Nat) (s2 : RelationalState)
    (h : s1.update t? i? n? c? now = Except.ok s2) :
    s2.trust = t?.getD s1.trust ∧ s2.intent = i?.getD s1.intent ∧
    s2.narrative = n?.getD s1.narrative ∧
    s2.commitments = c?.getD s1.commitments ∧
    s2.rupture_risk = s1.rupture_risk ∧ s2.is_gated = s1.is_gated ∧
    s2.last_updated = now := by
  have he := update_ok_fields s1 t? i? n? c? now s2 h
  rw [he]
  exact ⟨rfl, rfl, rfl, rfl, rfl, rfl, rfl⟩

theorem C5_witness :
    ∃ s2, RelationalState.update { trust := 4/5 } (some (1/2)) none none none 9 =
        Except.ok s2 ∧
      s2.trust = 1/2 ∧ s2.intent = 1 ∧ s2.narrative = 1 ∧ s2.commitments = 1 ∧
      s2.rupture_risk = 0 ∧ s2.is_gated = false := by
  have hok : RelationalState.update { trust := 4/5 } (some (1/2)) none none none 9 =
      Except.ok { trust := 1/2, intent := 1, narrative := 1, commitments := 1,
                  rupture_risk := 0, last_updated := 9, is_gated := false } := by
    norm_num [RelationalState.update, RelationalState.make, postInitCheck]
  have h := C5_update_frame _ _ _ _ _ _ _ hok
  exact ⟨_, hok, h.1, h.2.1, h.2.2.1, h.2.2.2.1, h.2.2.2.2.1, h.2.2.2.2.2.1⟩

/-- C6: with the gate already closed, risk computation (direct or via
`update_state`) still writes risk and timestamp but emits no signal and
appends no further gate event, however high the risk. -/
theorem C6_closed_no_reemit (k : RLP0) (now : Nat)
    (hc : k.gate.is_closed = true) :
    (k.compute_rupture_risk now).1.signalHistory = k.signalHistory ∧
    (k.compute_rupture_risk now).1.gate = k.gate ∧
    (k.compute_rupture_risk now).1.state.rupture_risk = riskOf k.state ∧
    (k.compute_rupture_risk now).1.state.last_updated = now ∧
    (∀ (t? i? n? c? : Option ℚ) (k1 : RLP0),
      k.update_state t? i? n? c? now = Except.ok k1 →
      k1.signalHistory = k.signalHistory ∧ k1.gate = k.gate) := by
  have hof : k.gate.is_open = false := Gate.is_open_false_of_closed k.gate hc
  have hcond : ∀ s : RelationalState,
      ¬ (riskOf s ≥ k.rupture_threshold ∧ k.gate.is_open = true) :=
    fun s h => absurd (hof.symm.trans h.2) (by decide)
  rw [compute_neg k now (hcond k.state)]
  refine ⟨rfl, rfl, rfl, rfl, ?_⟩
  intro t? i? n? c? k1 h
  obtain ⟨st, hst⟩ := update_state_ok k t? i? n? c? now k1 h
  rw [hst, compute_neg { k with state := st } now (hcond st)]
  exact ⟨rfl, rfl⟩

theorem C6_witness :
    (kClosed.compute_rupture_risk 11).1.signalHistory = kClosed.signalHistory ∧
    (kClosed.compute_rupture_risk 11).1.gate = kClosed.gate := by
  have h := C6_closed_no_reemit kClosed 11 kClosed_is_closed
  exact ⟨h.1, h.2.1⟩

/-- C7: gate transitions are total and idempotent: `close` on a CLOSED
gate and `release` on an OPEN gate are no-ops (no state change, no
history entry); otherwise `close` records `closed_at` and the reason and
appends one `closed` event at the given risk, `release` clears them and
appends one `released` event with reason "repair_acknowledged" at the
given risk; `check()` is true iff the gate is OPEN. -/
theorem C7_gate_operations (g : Gate) (r : String) (rr : ℚ) (now : Nat) :
    (g.is_closed = true → g.close r rr now = g) ∧
    (g.is_closed = false → g.close r rr now =
      { state := GateState.CLOSED, closed_at := some now, reason := some r,
        history := g.history ++ [{ action := "closed", timestamp := now,
                                   reason := some r,
                                   rupture_risk_at_event := rr }] }) ∧
    (g.is_open = true → g.release rr now = g) ∧
    (g.is_open = false → g.release rr now =
      { state := GateState.OPEN, closed_at := none, reason := none,
        history := g.history ++ [{ action := "released", timestamp := now,
                                   reason := some "repair_acknowledged",
                                   rupture_risk_at_event := rr }] }) ∧
    (g.check = true ↔ g.state = GateState.OPEN) := by
  refine ⟨fun h => by simp [Gate.close, h], fun h => by simp [Gate.close, h],
    fun h => by simp [Gate.release, h], fun h => by simp [Gate.release, h],
    ?_⟩
  simp [Gate.check, Gate.is_open]

theorem C7_witness :
    ({} : Gate).release (1/2) 4 = {} ∧
    (({} : Gate).close "alert" (7/10) 4).state = GateState.CLOSED ∧
    kClosed.gate.close "again" (9/10) 6 = kClosed.gate ∧
    (({} : Gate).check = true) := by
  have h1 := C7_gate_operations ({} : Gate) "alert" (7/10) 4
  have h1r := C7_gate_operations ({} : Gate) "x" (1/2) 4
  have h2 := C7_gate_operations kClosed.gate "again" (9/10) 6
  refine ⟨h1r.2.2.1 rfl, ?_, h2.1 kClosed_is_closed, h1.2.2.2.2.mpr rfl⟩
  rw [h1.2.1 rfl]

/-- C8: `SignalBus.history` returns a fresh copy of the internal
history list (`self._history.copy()`), so mutating the returned list
object leaves the bus's internal record intact; and `status()` builds
its `gate_history` as a fresh list of fresh dicts, leaving the gate's
own heap untouched. -/
theorem C8_defensive_copies (h : ListHeap Signal) (b : SignalBusObj)
    (hloc : b.histLoc < h.cells.length)
    (gh : ListHeap GateEvent) (lg : Nat) (eh : ListHeap GateHistoryEntry) :
    ((b.historyAccessor h).2 ≠ b.histLoc ∧
     (b.historyAccessor h).1.contents (b.historyAccessor h).2 =
       h.contents b.histLoc ∧
     (∀ v, ((b.historyAccessor h).1.mutate (b.historyAccessor h).2 v).contents
        b.histLoc = h.contents b.histLoc)) ∧
    ((statusGateHistoryAlloc gh lg eh).1 = gh ∧
     (statusGateHistoryAlloc gh lg eh).2.1.contents
        (statusGateHistoryAlloc gh lg eh).2.2 =
       (gh.contents lg).map statusEntryOfEvent ∧
     (statusGateHistoryAlloc gh lg eh).2.2 = eh.cells.length) := by
  refine ⟨⟨?_, ?_, ?_⟩, rfl, ?_, rfl⟩
  · show h.cells.length ≠ b.histLoc
    omega
  · show (h.cells ++ [h.contents b.histLoc]).getD h.cells.length [] =
      h.contents b.histLoc
    rw [List.getD_eq_getElem?_getD, List.getElem?_concat_length]
    rfl
  · intro v
    show ((h.cells ++ [h.contents b.histLoc]).set h.cells.length v).getD
        b.histLoc [] = h.cells.getD b.histLoc []
    rw [List.getD_eq_getElem?_getD, List.getD_eq_getElem?_getD,
      List.getElem?_set_ne (by omega), List.getElem?_append]
    rw [if_pos hloc]
  · show (eh.cells ++ [(gh.contents lg).map statusEntryOfEvent]).getD
        eh.cells.length [] = (gh.contents lg).map statusEntryOfEvent
    rw [List.getD_eq_getElem?_getD, List.getElem?_concat_length]
    rfl

theorem C8_witness :
    (SignalBusObj.historyAccessor ⟨0⟩ busHeapSample).2 ≠ 0 ∧
    (∀ v, ((SignalBusObj.historyAccessor ⟨0⟩ busHeapSample).1.mutate
        (SignalBusObj.historyAccessor ⟨0⟩ busHeapSample).2 v).contents 0 =
      busHeapSample.contents 0) ∧
    (statusGateHistoryAlloc gateHeapSample 0 ⟨[]⟩).1 = gateHeapSample := by
  have h := C8_defensive_copies busHeapSample ⟨0⟩ (by decide)
    gateHeapSample 0 ⟨[]⟩
  exact ⟨h.1.1, h.1.2.2, h.2.1⟩

/-- C9: starting from a default-constructed kernel, after any sequence
of public calls the state's `is_gated` flag, the kernel's `is_gated`
property and the gate's CLOSED status agree, and `check_gate()` is
their negation. -/
theorem C9_gating_invariant (θ : ℚ) (now0 : Nat) (ops : List KernelOp) :
    (runOps (RLP0.init θ none now0) ops).state.is_gated =
      (runOps (RLP0.init θ none now0) ops).gate.is_closed ∧
    (runOps (RLP0.init θ none now0) ops).isGatedProp =
      (runOps (RLP0.init θ none now0) ops).gate.is_closed ∧
    (runOps (RLP0.init θ none now0) ops).check_gate =
      !(runOps (RLP0.init θ none now0) ops).state.is_gated := by
  have h0 : gateCoherent (RLP0.init θ none now0) := rfl
  have h := runOps_coherent ops _ h0
  refine ⟨h, rfl, ?_⟩
  simp only [RLP0.check_gate, Gate.check]
  rw [Gate.is_open_eq_not_closed, h]

/-- C10: `RelationalState` validates only the four primitives, so a
state with an out-of-range `rupture_risk` (e.g. 5.0) is constructed
without error, kept verbatim when supplied to the kernel as initial
state, and the out-of-range value persists until the first
`compute_rupture_risk` call overwrites it with the formula value. -/
theorem C10_unvalidated_risk (risk : ℚ) (lu now now2 : Nat) :
    RelationalState.make 1 1 1 1 risk lu false =
      Except.ok (riskCarrierState risk lu) ∧
    (RLP0.init (6/10) (some (riskCarrierState risk lu)) now).state.rupture_risk =
      risk ∧
    ((RLP0.init (6/10) (some (riskCarrierState risk lu))
        now).compute_rupture_risk now2).1.state.rupture_risk =
      riskOf (riskCarrierState risk lu) ∧
    (RLP0.init (6/10) (some (riskCarrierState 5 lu)) now).state.rupture_risk =
      5 ∧
    ((RLP0.init (6/10) (some (riskCarrierState 5 lu))
        now).compute_rupture_risk now2).1.state.rupture_risk = 0 := by
  refine ⟨by norm_num [RelationalState.make, postInitCheck, riskCarrierState],
    rfl, (compute_writes_risk _ now2).2.1, rfl, ?_⟩
  rw [(compute_writes_risk _ now2).2.1]
  norm_num [RLP0.init, riskOf, riskCarrierState]
